import Mathlib

/-!
Verification of the metadata fusion and georeferencing pipeline of the
`frame_app` repository.

The Python sources are shallowly embedded over exact rational arithmetic:
Python floats become `ℚ`, `None`-able values become `Option`, Python dicts
with fixed string keys become association lists over a JSON-value type, and
calls into external libraries (`math.tan`, `math.cos`, `math.radians`,
`datetime.strptime`) or external processes (ExifTool, XMP scanning) become
explicit function/value parameters holding the decoded result of the call.
Python's `%` on floats, `round(x, n)` (ties to even) and `int(x)`
(truncation toward zero) are modelled by `pythonMod`, `pyRound` and `pyInt`.
-/

/-- Python float modulo for a positive divisor: the result takes the sign of
the divisor, `a % b == a - b * floor(a / b)`. -/
def pythonMod (a b : ℚ) : ℚ := a - b * ⌊a / b⌋

/-- Python `round(x, n)` on a float: round to `n` decimal places, ties to
even, idealized over exact rationals. -/
def pyRound (x : ℚ) (n : ℕ) : ℚ :=
  let y := x * 10 ^ n
  (if Int.fract y = 1 / 2 then 2 * round (y / 2) else round y) / 10 ^ n

/-- Python `int(x)` on a float: truncation toward zero. -/
def pyInt (q : ℚ) : ℤ := if 0 ≤ q then ⌊q⌋ else ⌈q⌉

/-- Models `geo_math_service.normalize_azimuth` (identical duplicate in
`image_to_json_generator.normalize_azimuth`): `None ↦ 0.0`;
`a < 0 ↦ a + 360`; `a ≥ 360 ↦ a % 360`; otherwise unchanged. -/
def normalize_azimuth : Option ℚ → ℚ
  | none => 0
  | some a => if a < 0 then a + 360 else if 360 ≤ a then pythonMod a 360 else a

/-- Models the wrap step `p = ((p + 180.0) % 360.0) - 180.0` of
`geo_math_service.normalize_pitch`. -/
def pitchWrap (p : ℚ) : ℚ := pythonMod (p + 180) 360 - 180

/-- Models `geo_math_service.normalize_pitch` (identical duplicate in
`image_to_json_generator.normalize_pitch`): `None ↦ 0.0`; otherwise wrap via
`((p + 180) % 360) - 180`, then clamp to `[-90, 90]`. -/
def normalize_pitch : Option ℚ → ℚ
  | none => 0
  | some p =>
      if pitchWrap p < -90 then -90
      else if 90 < pitchWrap p then 90
      else pitchWrap p

/-- Models `geo_math_service.calculate_resolution` (identical duplicate in
`image_to_json_generator.calculate_resolution`). The external library
functions `math.tan` and `math.radians` appear as the parameters `tan` and
`radians`; everything else is translated line by line, with Python's
truthiness tests `if width`, `if height` and `if (resolution_x and
resolution_y)` rendered as inequality with zero. -/
def calculate_resolution (tan radians : ℚ → ℚ)
    (width height fov_x fov_y altitude : ℚ) : ℚ :=
  let fov_x_rad := radians fov_x
  let fov_y_rad := radians fov_y
  let ground_width := 2 * altitude * tan (fov_x_rad / 2)
  let ground_height := 2 * altitude * tan (fov_y_rad / 2)
  let resolution_x := if width ≠ 0 then ground_width / width else 0
  let resolution_y := if height ≠ 0 then ground_height / height else 0
  if resolution_x ≠ 0 ∧ resolution_y ≠ 0 then
    pyRound ((resolution_x + resolution_y) / 2) 5
  else 0

/-- World-file affine sextuple, fields in the order the `.jpw` file lines
are written by `qgis_service.create_jpw_from_json`. -/
structure JPW where
  A : ℚ
  D : ℚ
  B : ℚ
  E : ℚ
  C : ℚ
  F : ℚ
deriving DecidableEq

/-- Models the coefficient computation of `qgis_service.create_jpw_from_json`
(identical duplicate in `image_to_json_generator.create_jpw_from_json`),
lines 75-88: the numeric inputs read out of the per-image JSON document are
parameters, `math.cos` and `math.radians` appear as function parameters, and
the file-writing tail is out of scope. -/
def create_jpw_from_json (cos radians : ℚ → ℚ)
    (width_pixels height_pixels resolution_meters_per_pixel
      center_lat center_lon : ℚ) : JPW :=
  let lat_radians := radians center_lat
  let meters_per_deg_lon := 111320 * cos lat_radians
  let A := resolution_meters_per_pixel / meters_per_deg_lon
  let meters_per_deg_lat : ℚ := 111320
  let E := -resolution_meters_per_pixel / meters_per_deg_lat
  let B : ℚ := 0
  let D : ℚ := 0
  let offset_x_deg := width_pixels / 2 * A
  let offset_y_deg := height_pixels / 2 * |E|
  let C := center_lon - offset_x_deg
  let F := center_lat + offset_y_deg
  ⟨A, D, B, E, C, F⟩

/-- Rational value of one EXIF DMS component, as exposed by `exifread`
(`.num` and `.den` fields). -/
structure ExifRatio where
  num : ℤ
  den : ℤ
deriving DecidableEq

/-- One degrees/minutes/seconds triple (`dms[0]`, `dms[1]`, `dms[2]`). -/
structure DmsTriple where
  d : ExifRatio
  m : ExifRatio
  s : ExifRatio
deriving DecidableEq

/-- Models `exif_service.get_decimal_from_dms` (identical duplicate in
`image_to_json_generator.get_decimal_from_dms`): convert DMS to decimal
degrees, negate for the `S`/`W` hemisphere, round to 6 decimal places. The
`except` path (a `ZeroDivisionError` from a zero denominator) returns
`None`, modelled by the denominator guard. -/
def get_decimal_from_dms (dms : DmsTriple) (ref : String) : Option ℚ :=
  if dms.d.den = 0 ∨ dms.m.den = 0 ∨ dms.s.den = 0 then none
  else
    let degrees := (dms.d.num : ℚ) / (dms.d.den : ℚ)
    let minutes := (dms.m.num : ℚ) / (dms.m.den : ℚ)
    let seconds := (dms.s.num : ℚ) / (dms.s.den : ℚ)
    let decimal := degrees + minutes / 60 + seconds / 3600
    some (pyRound (if ref = "S" ∨ ref = "W" then -decimal else decimal) 6)

/-- The four GPS tags `extract_gps_info_from_tags` requires; `none` models a
key missing from the `exifread` tag dictionary. -/
structure GpsTags where
  gpsLatitude : Option DmsTriple
  gpsLatitudeRef : Option String
  gpsLongitude : Option DmsTriple
  gpsLongitudeRef : Option String
deriving DecidableEq

/-- Models `exif_service.extract_gps_info_from_tags` (identical duplicate in
`image_to_json_generator.extract_gps_info_from_tags`): require all four GPS
tags, convert both DMS values, validate ranges, and on any failure return
`(None, None)` for both coordinates. -/
def extract_gps_info_from_tags (tags : GpsTags) : Option ℚ × Option ℚ :=
  match tags.gpsLatitude, tags.gpsLatitudeRef,
      tags.gpsLongitude, tags.gpsLongitudeRef with
  | some lat, some lat_ref, some lon, some lon_ref =>
      match get_decimal_from_dms lat lat_ref,
          get_decimal_from_dms lon lon_ref with
      | some lat_decimal, some lon_decimal =>
          if (-90 ≤ lat_decimal ∧ lat_decimal ≤ 90) ∧
              (-180 ≤ lon_decimal ∧ lon_decimal ≤ 180) then
            (some lat_decimal, some lon_decimal)
          else (none, none)
      | _, _ => (none, none)
  | _, _, _, _ => (none, none)

/-- JSON value stored in one field of a record section: Python `None`, a
number, or a string. -/
inductive JVal
  | null
  | num (q : ℚ)
  | str (s : String)
deriving DecidableEq

/-- A Python value that is `None` or a float, placed directly into a dict
(as `build_camera_position` does with the extracted latitude/longitude). -/
def optNum : Option ℚ → JVal
  | none => JVal.null
  | some q => JVal.num q

/-- Dictionary lookup on an association list with string keys. -/
def lookupKey {α : Type} (l : List (String × α)) (k : String) : Option α :=
  (l.find? (fun p => p.1 == k)).map (fun p => p.2)

/-- Models `utils_service.get_float(tag_name, tags, default)`: `val` is the
parsed float value of `tags.get(tag_name)` (`none` when the tag is absent,
falsy, or its string form does not parse as a float), in which case the
default is returned. -/
def get_float (val : Option ℚ) (default : ℚ) : ℚ := val.getD default

/-- Models `utils_service.to_float_rounded(val, digits)`: `round(float(val),
digits)`, and `0.0` when `val` is absent/unparsable (the bare `except`
path). -/
def to_float_rounded (val : Option ℚ) (digits : ℕ) : ℚ :=
  match val with
  | some q => pyRound q digits
  | none => 0

/-- The embedded-tag values the record builders read (one per `tags.get`
call site), each already decoded: `none` models an absent or unparsable
tag. `gpsAltitudeRatio` is the raw rational read by
`build_camera_position.get_altitude`, while `gpsAltitudeFloat` is the
`get_float`-parsed form of the same tag used by `build_platform_data` —
the two call sites parse the tag differently. -/
structure Tags where
  exifImageWidth : Option ℤ
  exifImageLength : Option ℤ
  dateTimeOriginal : Option String
  focalLengthIn35mmFilm : Option ℚ
  imageMake : Option String
  imageModel : Option String
  gpsAltitudeRatio : Option ExifRatio
  gpsAltitudeFloat : Option ℚ
  gpsTrack : Option ℚ
deriving DecidableEq

/-- The decoded JSON response of the ExifTool invocation made by
`build_platform_data`; each field is `data.get(tag)` run through
`to_float` (which yields `None` for an absent or unparsable value). -/
structure ToolData where
  gpsAlt : Option ℚ
  gpsAltRef : Option ℚ
  absAlt : Option ℚ
  flightYaw : Option ℚ
  flightPitch : Option ℚ
  flightRoll : Option ℚ
deriving DecidableEq

/-- The dict returned by `exif_service.get_los_fields`: always three floats
(each defaulting to `0.0` when the gimbal tag is absent or the tool
invocation failed). -/
structure LosFields where
  losAzimuth : ℚ
  losPitch : ℚ
  losRoll : ℚ
deriving DecidableEq

/-- Stem of `os.path.splitext(filename)[0]` for an ordinary file name: drop
the suffix after the last dot when there is one. -/
def splitext_stem (s : String) : String :=
  let parts := s.splitOn "."
  if parts.length ≤ 1 then s else String.intercalate "." parts.dropLast

/-- Models the `mslAltitude` fusion of
`json_builders_service.build_platform_data` (identical logic in
`image_to_json_generator.build_platform_data`): start from the
`get_float`-parsed embedded `GPS GPSAltitude` tag with default `0.0`; when
the ExifTool invocation succeeded (`tool = some d`), prefer the tool's
`GPSAltitude` when its `GPSAltitudeRef` is absent or `int(ref) == 0`, else
the tool's `AbsoluteAltitude` when present, else keep the embedded-tag
fallback. `tool = none` models the `except` path of a failed invocation. -/
def fused_msl (tags : Tags) (tool : Option ToolData) : ℚ :=
  let msl0 := get_float tags.gpsAltitudeFloat 0
  match tool with
  | none => msl0
  | some d =>
      if d.gpsAlt.isSome ∧ (d.gpsAltRef = none ∨ pyInt (d.gpsAltRef.getD 0) = 0)
      then d.gpsAlt.getD msl0
      else if d.absAlt.isSome then d.absAlt.getD msl0
      else msl0

/-- Models `json_builders_service.build_basic_data`. The `reformatTime`
parameter is the `datetime.strptime`/`strftime` reformatting of the
capture timestamp (`none` models the `except` path of an unparsable
string); `xmpRelAlt` is the parsed `RelativeAltitude` attribute of the XMP
block (`none` when the block, description or attribute is missing, making
the resolution `0.0`). -/
def build_basic_data (reformatTime : String → Option String)
    (tan radians : ℚ → ℚ) (filename : String) (tags : Tags)
    (xmpRelAlt : Option ℚ) : List (String × JVal) :=
  let width := tags.exifImageWidth.getD 0
  let height := tags.exifImageLength.getD 0
  let raw_time := tags.dateTimeOriginal.getD ""
  let imaging_time := if raw_time = "" then raw_time
    else (reformatTime raw_time).getD ""
  let resolution := match xmpRelAlt with
    | some altitude =>
        calculate_resolution tan radians width height (829/10) (525/10) altitude
    | none => 0
  [("id", JVal.str (splitext_stem filename)),
   ("sensorName", JVal.str "Modash"),
   ("sensorType", JVal.str "VIS"),
   ("imageFile", JVal.str filename),
   ("imagingTime", JVal.str imaging_time),
   ("prevImagingTime", JVal.null),
   ("nextImagingTime", JVal.null),
   ("height", JVal.num height),
   ("width", JVal.num width),
   ("resolution", JVal.num resolution)]

/-- Models `json_builders_service.build_camera_data`: pixel focal lengths
from the 35mm-equivalent focal length tag (both `0.0` on the `except`
path), fixed intrinsics, make/model strings defaulting to `""`. -/
def build_camera_data (tags : Tags) : List (String × JVal) :=
  let width := tags.exifImageWidth.getD 0
  let height := tags.exifImageLength.getD 0
  let fxfy : ℚ × ℚ := match tags.focalLengthIn35mmFilm with
    | some focal_35mm => ((focal_35mm / 36) * width, (focal_35mm / 24) * height)
    | none => (0, 0)
  [("focalLengthInPixelsX", JVal.num (pyRound fxfy.1 4)),
   ("focalLengthInPixelsY", JVal.num (pyRound fxfy.2 4)),
   ("foVX", JVal.num (829/10)),
   ("foVY", JVal.num (525/10)),
   ("cx", JVal.num (width / 2)),
   ("cy", JVal.num (height / 2)),
   ("k1", JVal.num 0),
   ("k2", JVal.num 0),
   ("k3", JVal.num 0),
   ("p1", JVal.num 0),
   ("p2", JVal.num 0),
   ("alpha", JVal.num 0),
   ("cameraMake", JVal.str (tags.imageMake.getD "")),
   ("cameraModel", JVal.str (tags.imageModel.getD "")),
   ("focalId", JVal.null),
   ("exposureDuration", JVal.null),
   ("fnumber", JVal.null)]

/-- Models `json_builders_service.build_camera_position`: `lat`/`lon` are
the pair returned by `extract_gps_info_from_tags` and are stored as-is
(`None` stays `None`); `los` is the `get_los_fields` result;
`relative_alt` the `extract_relative_altitude` result. The embedded
altitude ratio is `num/den` with the `except` path (e.g. a zero
denominator) collapsing to the default `0.0`, exactly the value `ℚ`
division by zero yields. -/
def build_camera_position (tags : Tags) (lat lon : Option ℚ)
    (los : LosFields) (relative_alt : ℚ) : List (String × JVal) :=
  let gps_altitude : ℚ := match tags.gpsAltitudeRatio with
    | some ratio => (ratio.num : ℚ) / (ratio.den : ℚ)
    | none => 0
  [("gpsLatitude", optNum lat),
   ("gpsLongitude", optNum lon),
   ("gpsAltitude", JVal.num gps_altitude),
   ("relativeAltitude", JVal.num relative_alt),
   ("losAzimuth", JVal.num (pyRound (normalize_azimuth (some los.losAzimuth)) 4)),
   ("losPitch", JVal.num (pyRound (normalize_pitch (some los.losPitch)) 4)),
   ("losRoll", JVal.num (pyRound los.losRoll 4))]

/-- Models `json_builders_service.build_platform_data`. The ExifTool
response is `tool` (`none` on invocation failure, keeping the defaults).
`to_float_rounded` never returns `None`, so the source's
`if yaw_exif is not None` guards are always taken when the invocation
succeeded. -/
def build_platform_data (tags : Tags) (drone_type : String)
    (tool : Option ToolData) : List (String × JVal) :=
  let true_course := get_float tags.gpsTrack 0
  let yaw : ℚ := match tool with
    | none => 0
    | some d => normalize_azimuth (some (to_float_rounded d.flightYaw 4))
  let pitch : ℚ := match tool with
    | none => 0
    | some d => normalize_pitch (some (to_float_rounded d.flightPitch 4))
  let roll : ℚ := match tool with
    | none => 0
    | some d => to_float_rounded d.flightRoll 4
  [("platformName", JVal.str drone_type),
   ("platformId", JVal.null),
   ("trueCourse", JVal.num true_course),
   ("groundSpeed", JVal.num (1/100)),
   ("mslAltitude", JVal.num (fused_msl tags tool)),
   ("platformYaw", JVal.num yaw),
   ("platformPitch", JVal.num pitch),
   ("platformRoll", JVal.num roll)]

/-- Models `json_builders_service.build_operational_data`. -/
def build_operational_data : List (String × JVal) :=
  [("missionNumber", JVal.null),
   ("operationUnit", JVal.str "Padam")]

/-- Models `json_builders_service.build_sensor_specific_data`. -/
def build_sensor_specific_data : List (String × JVal) :=
  [("state", JVal.str "0"),
   ("sixDofSource", JVal.null),
   ("groundRef", JVal.null)]

/-- Models `json_builders_service.build_json_structure`: the six-section
record for one image. The parameters carry the decoded results of the
source readers the individual builders invoke: `xmpRelAlt` is the parsed
XMP `RelativeAltitude` (so `extract_relative_altitude` is
`xmpRelAlt.getD 0`), `los` the gimbal dict, `tool` the ExifTool platform
response. -/
def build_json_structure (reformatTime : String → Option String)
    (tan radians : ℚ → ℚ) (filename : String) (tags : Tags)
    (lat lon : Option ℚ) (xmpRelAlt : Option ℚ) (los : LosFields)
    (tool : Option ToolData) (drone_type : String) :
    List (String × List (String × JVal)) :=
  [("BasicData", build_basic_data reformatTime tan radians filename tags xmpRelAlt),
   ("CameraData", build_camera_data tags),
   ("CameraPosition", build_camera_position tags lat lon los (xmpRelAlt.getD 0)),
   ("PlatformData", build_platform_data tags drone_type tool),
   ("Operational", build_operational_data),
   ("SensorSpecificData", build_sensor_specific_data)]

/-- The fallible events of processing one image inside the loop of
`image_to_json_generator.process_images_to_individual_json`: `readOk` —
`exifread.process_file` raised no exception; `losAzimuth`, `losPitch`,
`relativeAltitude` — the extracted values used by the classification;
`buildOk` — `build_json_structure` raised no exception; `writeOk` — the
`json.dump` write of the classified record raised no exception;
`retryReadOk`/`retryBuildOk`/`retryWriteOk` — the same three steps inside
the best-effort fallback of the `except` handler. -/
structure ImageEnv where
  readOk : Bool
  losAzimuth : ℚ
  losPitch : ℚ
  relativeAltitude : ℚ
  buildOk : Bool
  writeOk : Bool
  retryReadOk : Bool
  retryBuildOk : Bool
  retryWriteOk : Bool
deriving DecidableEq

/-- Where one image's record ends up: written to the accept (`output`)
directory, written to the reject (`fail_output`) directory, or skipped
with no artifact because the fallback failed too. -/
inductive Artifact
  | accepted
  | rejected
  | skipped
deriving DecidableEq

/-- The three session counters of
`process_images_to_individual_json`: `total_images`,
`successful_extractions`, `failed_extractions` as written to the `.fns`
marker. -/
structure Counters where
  total : ℕ
  ok : ℕ
  failed : ℕ
deriving DecidableEq

/-- Models `has_los_fields` of the classification in
`process_images_to_individual_json` (line 640): both gimbal angles
nonzero. -/
def has_los_fields (losAzimuth losPitch : ℚ) : Bool :=
  decide (losAzimuth ≠ 0) && decide (losPitch ≠ 0)

/-- Models `has_relative_alt` of the classification (line 642). -/
def has_relative_alt (relative_alt : ℚ) : Bool := decide (relative_alt ≠ 0)

/-- The best-effort fallback inside the `except` handler (lines 670-679):
re-read the tags, rebuild the record and write it to the reject directory;
any failure in these steps skips the image. -/
def retry_fallback (e : ImageEnv) : Artifact :=
  if e.retryReadOk && e.retryBuildOk && e.retryWriteOk then Artifact.rejected
  else Artifact.skipped

/-- Models the loop body of `process_images_to_individual_json` for one
image file (lines 626-679): `total_images` is incremented first; on the
no-exception path the record is classified and the matching counter
incremented, then written; an exception anywhere in the `try` block
increments `failed_extractions` (in addition to any classification counter
already incremented) and runs the best-effort fallback. Returns the
counter increments and where the record landed. -/
def processImage (e : ImageEnv) : Counters × Artifact :=
  if e.readOk && e.buildOk then
    if has_los_fields e.losAzimuth e.losPitch &&
        has_relative_alt e.relativeAltitude then
      if e.writeOk then (⟨1, 1, 0⟩, Artifact.accepted)
      else (⟨1, 1, 1⟩, retry_fallback e)
    else
      if e.writeOk then (⟨1, 0, 1⟩, Artifact.rejected)
      else (⟨1, 0, 2⟩, retry_fallback e)
  else (⟨1, 0, 1⟩, retry_fallback e)

/-- Componentwise sum of session counters. -/
def addCounters (c d : Counters) : Counters :=
  ⟨c.total + d.total, c.ok + d.ok, c.failed + d.failed⟩

/-- The whole-session counters: the loop of
`process_images_to_individual_json` accumulated over every image file of
the session. -/
def processBatch (envs : List ImageEnv) : Counters :=
  envs.foldl (fun c e => addCounters c (processImage e).1) ⟨0, 0, 0⟩

/-- The per-image artifacts of a session, in processing order. -/
def batchArtifacts (envs : List ImageEnv) : List Artifact :=
  envs.map (fun e => (processImage e).2)

/-- An image whose extraction succeeds with nonzero gimbal angles and
relative altitude and whose record writes cleanly. -/
def okEnv : ImageEnv := ⟨true, 90, 5, 10, true, true, true, true, true⟩

/-- An image whose embedded tag block is corrupt: `build_json_structure`
raises (e.g. a garbage width tag), while the best-effort fallback write
succeeds. -/
def corruptEnv : ImageEnv := ⟨true, 90, 5, 10, false, true, true, true, true⟩

section ModLemmas

lemma pythonMod_nonneg (a b : ℚ) (hb : 0 < b) : 0 ≤ pythonMod a b := by
  have h : (⌊a / b⌋ : ℚ) ≤ a / b := Int.floor_le (a / b)
  have h2 : b * (⌊a / b⌋ : ℚ) ≤ b * (a / b) :=
    mul_le_mul_of_nonneg_left h hb.le
  rw [mul_div_cancel₀ a hb.ne'] at h2
  unfold pythonMod
  linarith

lemma pythonMod_lt (a b : ℚ) (hb : 0 < b) : pythonMod a b < b := by
  have h : a / b < (⌊a / b⌋ : ℚ) + 1 := Int.lt_floor_add_one (a / b)
  have h2 : b * (a / b) < b * ((⌊a / b⌋ : ℚ) + 1) :=
    (mul_lt_mul_left hb).mpr h
  rw [mul_div_cancel₀ a hb.ne'] at h2
  unfold pythonMod
  nlinarith

lemma pythonMod_eq_self {a b : ℚ} (hb : 0 < b) (h0 : 0 ≤ a) (h1 : a < b) :
    pythonMod a b = a := by
  have hfl : ⌊a / b⌋ = 0 := by
    rw [Int.floor_eq_zero_iff]
    constructor
    · exact div_nonneg h0 hb.le
    · exact (div_lt_one hb).mpr h1
  unfold pythonMod
  rw [hfl]
  push_cast
  ring

end ModLemmas

section NormalizerLemmas

lemma normalize_azimuth_mem {a : ℚ} (h : -360 ≤ a) :
    0 ≤ normalize_azimuth (some a) ∧ normalize_azimuth (some a) < 360 := by
  simp only [normalize_azimuth]
  split_ifs with h1 h2
  · constructor <;> linarith
  · exact ⟨pythonMod_nonneg a 360 (by norm_num), pythonMod_lt a 360 (by norm_num)⟩
  · constructor <;> linarith

lemma normalize_azimuth_eq_self {r : ℚ} (h0 : 0 ≤ r) (h1 : r < 360) :
    normalize_azimuth (some r) = r := by
  simp only [normalize_azimuth]
  rw [if_neg (by linarith), if_neg (by linarith)]

lemma pitchWrap_mem (p : ℚ) : -180 ≤ pitchWrap p ∧ pitchWrap p < 180 := by
  have h0 := pythonMod_nonneg (p + 180) 360 (by norm_num)
  have h1 := pythonMod_lt (p + 180) 360 (by norm_num)
  unfold pitchWrap
  constructor <;> linarith

lemma pitchWrap_eq_self {r : ℚ} (h0 : -90 ≤ r) (h1 : r ≤ 90) :
    pitchWrap r = r := by
  unfold pitchWrap
  rw [pythonMod_eq_self (by norm_num) (by linarith) (by linarith)]
  ring

lemma normalize_pitch_mem (p : ℚ) :
    -90 ≤ normalize_pitch (some p) ∧ normalize_pitch (some p) ≤ 90 := by
  simp only [normalize_pitch]
  split_ifs with h1 h2
  · norm_num
  · norm_num
  · constructor <;> linarith

lemma normalize_pitch_eq_self {r : ℚ} (h0 : -90 ≤ r) (h1 : r ≤ 90) :
    normalize_pitch (some r) = r := by
  simp only [normalize_pitch]
  rw [pitchWrap_eq_self h0 h1, if_neg (by linarith), if_neg (by linarith)]

end NormalizerLemmas

/-- Claim C1, counterexample: the spec asserts idempotence and a result in
`[0, 360)` for every real azimuth input, but `normalize_azimuth` adds `360`
only once to a negative input, so at `a = -400` the result is `-40`,
outside `[0, 360)`, and normalizing a second time gives `320 ≠ -40`. -/
theorem normalize_azimuth_claim_counterexample :
    normalize_azimuth (some (-400)) = -40 ∧
    ¬ (0 ≤ normalize_azimuth (some (-400))) ∧
    normalize_azimuth (some (normalize_azimuth (some (-400)))) ≠
      normalize_azimuth (some (-400)) := by
  have h1 : normalize_azimuth (some (-400)) = -40 := by
    simp only [normalize_azimuth]
    norm_num
  have h2 : normalize_azimuth (some (-40)) = 320 := by
    simp only [normalize_azimuth]
    norm_num
  refine ⟨h1, by rw [h1]; norm_num, ?_⟩
  rw [h1, h2]
  norm_num

/-- Claim C1 (amended): for every azimuth input `a ≥ -360` the result of
`normalize_azimuth` lies in `[0, 360)` and normalizing is idempotent, and a
`None` input normalizes to `0.0`. (As stated, for arbitrary real input, the
claim fails below `-360`; a single `+360` is applied to negative inputs.) -/
theorem normalize_azimuth_idempotent_in_range :
    normalize_azimuth none = 0 ∧
    ∀ a : ℚ, -360 ≤ a →
      0 ≤ normalize_azimuth (some a) ∧ normalize_azimuth (some a) < 360 ∧
        normalize_azimuth (some (normalize_azimuth (some a))) =
          normalize_azimuth (some a) := by
  refine ⟨rfl, fun a ha => ?_⟩
  obtain ⟨h0, h1⟩ := normalize_azimuth_mem ha
  exact ⟨h0, h1, normalize_azimuth_eq_self h0 h1⟩

/-- Claim C1 witness: the amended theorem instantiated at `a = 400`,
where the result is `400 % 360 = 40`. -/
theorem normalize_azimuth_idempotent_in_range_witness :
    (0 ≤ normalize_azimuth (some 400) ∧ normalize_azimuth (some 400) < 360 ∧
        normalize_azimuth (some (normalize_azimuth (some 400))) =
          normalize_azimuth (some 400)) ∧
      normalize_azimuth (some 400) = 40 := by
  refine ⟨normalize_azimuth_idempotent_in_range.2 400 (by norm_num), ?_⟩
  simp only [normalize_azimuth]
  rw [if_neg (by norm_num), if_pos (by norm_num)]
  norm_num [pythonMod]

/-- Claim C2, counterexample: the spec says the wrap step
`((p + 180) mod 360) - 180` lands in `(-180, 180]`, but Python's float `%`
with positive divisor yields a value in `[0, 360)`, so the wrap lands in
`[-180, 180)`: at `p = 180` the wrap gives exactly `-180`, which is not in
`(-180, 180]` (and consequently `normalize_pitch(180) = -90`, not `90`). -/
theorem pitch_wrap_interval_counterexample :
    pitchWrap 180 = -180 ∧
    ¬ (-180 < pitchWrap 180 ∧ pitchWrap 180 ≤ 180) ∧
    normalize_pitch (some 180) = -90 := by
  have h : pitchWrap 180 = -180 := by
    unfold pitchWrap
    norm_num [pythonMod]
  refine ⟨h, by rw [h]; norm_num, ?_⟩
  simp only [normalize_pitch]
  rw [h]
  norm_num

/-- Claim C2 (amended): `normalize_pitch` first wraps its input into
`[-180, 180)` (not `(-180, 180]`) via `((p + 180) % 360) - 180` and then
clamps to `[-90, 90]`, so the result always lies in `[-90, 90]`; in
particular `normalize_pitch 270 = -90`, `normalize_pitch (-270) = 90`, and a
`None` input normalizes to `0.0`. -/
theorem normalize_pitch_wrap_and_clamp :
    normalize_pitch none = 0 ∧
    normalize_pitch (some 270) = -90 ∧
    normalize_pitch (some (-270)) = 90 ∧
    ∀ p : ℚ,
      (-180 ≤ pitchWrap p ∧ pitchWrap p < 180) ∧
        (-90 ≤ normalize_pitch (some p) ∧ normalize_pitch (some p) ≤ 90) := by
  have h270 : pitchWrap 270 = -90 := by
    unfold pitchWrap
    norm_num [pythonMod]
  have hm270 : pitchWrap (-270) = 90 := by
    unfold pitchWrap
    norm_num [pythonMod]
  refine ⟨rfl, ?_, ?_, fun p => ⟨pitchWrap_mem p, normalize_pitch_mem p⟩⟩
  · simp only [normalize_pitch]
    rw [h270]
    norm_num
  · simp only [normalize_pitch]
    rw [hm270]
    norm_num

/-- Claim C10: `normalize_pitch` is idempotent, because its output always
lies in `[-90, 90]`, an interval on which the wrap step is the identity and
the clamp is a no-op. -/
theorem normalize_pitch_idempotent (p : ℚ) :
    normalize_pitch (some (normalize_pitch (some p))) =
      normalize_pitch (some p) := by
  obtain ⟨h0, h1⟩ := normalize_pitch_mem p
  exact normalize_pitch_eq_self h0 h1

/-- Claim C6, counterexample: the spec says that whenever both pixel
dimensions are nonzero the result is the rounded average of the two
per-axis resolutions, but the code also returns `0.0` whenever either
per-axis resolution itself is zero; with `tan` and `radians` instantiated
to the identity (which, like `math.tan` after `math.radians`, sends `0` to
`0`), at `width = height = 1`, `fov_x = 0`, `fov_y = 4`, `altitude = 1` the
code returns `0` while the rounded average of the per-axis resolutions is
`2`. -/
theorem calculate_resolution_counterexample :
    calculate_resolution id id 1 1 0 4 1 = 0 ∧
    pyRound ((2 * 1 * id (id (0 : ℚ) / 2) / 1 +
        2 * 1 * id (id (4 : ℚ) / 2) / 1) / 2) 5 = 2 ∧
    calculate_resolution id id 1 1 0 4 1 ≠
      pyRound ((2 * 1 * id (id (0 : ℚ) / 2) / 1 +
        2 * 1 * id (id (4 : ℚ) / 2) / 1) / 2) 5 := by
  have h1 : calculate_resolution id id 1 1 0 4 1 = 0 := by
    simp [calculate_resolution]
  have h2 : pyRound ((2 * 1 * id (id (0 : ℚ) / 2) / 1 +
      2 * 1 * id (id (4 : ℚ) / 2) / 1) / 2) 5 = 2 := by
    norm_num [pyRound, Int.fract, round_eq, id_eq]
  exact ⟨h1, h2, by rw [h1, h2]; norm_num⟩

/-- Claim C6 (amended): for all inputs, if `width = 0` or `height = 0` the
ground-sample-distance computation returns `0.0` without any division
fault; otherwise, when both per-axis resolutions
`2 * altitude * tan(radians(fov) / 2) / dimension` are nonzero it returns
their average rounded to 5 decimal places, and when either per-axis
resolution is zero (zero altitude or a zero field-of-view axis) it returns
`0.0`. -/
theorem calculate_resolution_guarded (tan radians : ℚ → ℚ)
    (width height fov_x fov_y altitude : ℚ) :
    (width = 0 ∨ height = 0 →
      calculate_resolution tan radians width height fov_x fov_y altitude = 0) ∧
    (width ≠ 0 → height ≠ 0 →
      (2 * altitude * tan (radians fov_x / 2) / width ≠ 0 →
        2 * altitude * tan (radians fov_y / 2) / height ≠ 0 →
        calculate_resolution tan radians width height fov_x fov_y altitude =
          pyRound ((2 * altitude * tan (radians fov_x / 2) / width +
            2 * altitude * tan (radians fov_y / 2) / height) / 2) 5) ∧
      (2 * altitude * tan (radians fov_x / 2) / width = 0 ∨
        2 * altitude * tan (radians fov_y / 2) / height = 0 →
        calculate_resolution tan radians width height fov_x fov_y altitude = 0)) := by
  constructor
  · rintro (h | h) <;> simp [calculate_resolution, h]
  · intro hw hh
    constructor
    · intro hx hy
      simp only [calculate_resolution]
      rw [if_pos hw, if_pos hh, if_pos ⟨hx, hy⟩]
    · rintro (h | h) <;>
        · simp only [calculate_resolution]
          rw [if_pos hw, if_pos hh, if_neg (by tauto)]

/-- Claim C6 witness: the amended theorem instantiated at
`tan = radians = id`, `width = height = 2`, `fov_x = fov_y = 4`,
`altitude = 1` (both hypotheses discharged by evaluation), and at
`width = 0` for the zero-dimension branch. -/
theorem calculate_resolution_guarded_witness :
    calculate_resolution id id 2 2 4 4 1 =
      pyRound ((2 * 1 * id (id (4 : ℚ) / 2) / 2 +
        2 * 1 * id (id (4 : ℚ) / 2) / 2) / 2) 5 ∧
    calculate_resolution id id 0 2 4 4 1 = 0 :=
  ⟨((calculate_resolution_guarded id id 2 2 4 4 1).2 (by norm_num)
      (by norm_num)).1 (by norm_num) (by norm_num),
    (calculate_resolution_guarded id id 0 2 4 4 1).1 (Or.inl rfl)⟩

/-- Claim C5: for the flat-earth world-file variant, the rotation
coefficients `B` and `D` are exactly `0`,
`A = resolution / (111320 * cos(radians(lat)))`, `E = -resolution / 111320`,
and for any `resolution > 0` reapplying the affine at pixel
`(width / 2, height / 2)` returns exactly `(lon, lat)` in exact arithmetic.
The external `math.cos` and `math.radians` are the parameters `cos` and
`radians`. -/
theorem jpw_affine_center_roundtrip (cos radians : ℚ → ℚ)
    (width height resolution lat lon : ℚ) (hres : 0 < resolution)
    (hcos : 111320 * cos (radians lat) ≠ 0) :
    (create_jpw_from_json cos radians width height resolution lat lon).B = 0 ∧
    (create_jpw_from_json cos radians width height resolution lat lon).D = 0 ∧
    (create_jpw_from_json cos radians width height resolution lat lon).A =
      resolution / (111320 * cos (radians lat)) ∧
    (create_jpw_from_json cos radians width height resolution lat lon).E =
      -resolution / 111320 ∧
    (create_jpw_from_json cos radians width height resolution lat lon).C +
        width / 2 *
          (create_jpw_from_json cos radians width height resolution lat lon).A +
        height / 2 *
          (create_jpw_from_json cos radians width height resolution lat lon).B =
      lon ∧
    (create_jpw_from_json cos radians width height resolution lat lon).F +
        width / 2 *
          (create_jpw_from_json cos radians width height resolution lat lon).D +
        height / 2 *
          (create_jpw_from_json cos radians width height resolution lat lon).E =
      lat := by
  have habs : |(-resolution / 111320 : ℚ)| = resolution / 111320 := by
    rw [neg_div, abs_neg, abs_of_nonneg (div_nonneg hres.le (by norm_num))]
  have hA : (create_jpw_from_json cos radians width height resolution lat lon).A =
      resolution / (111320 * cos (radians lat)) := rfl
  have hB : (create_jpw_from_json cos radians width height resolution lat lon).B =
      0 := rfl
  have hD : (create_jpw_from_json cos radians width height resolution lat lon).D =
      0 := rfl
  have hE : (create_jpw_from_json cos radians width height resolution lat lon).E =
      -resolution / 111320 := rfl
  have hC : (create_jpw_from_json cos radians width height resolution lat lon).C =
      lon - width / 2 * (resolution / (111320 * cos (radians lat))) := rfl
  have hF : (create_jpw_from_json cos radians width height resolution lat lon).F =
      lat + height / 2 * |(-resolution / 111320 : ℚ)| := rfl
  refine ⟨hB, hD, hA, hE, ?_, ?_⟩
  · rw [hC, hA, hB]
    ring
  · rw [hF, hD, hE, habs]
    ring

/-- Claim C5 witness: the theorem instantiated at `cos = const 1/2`,
`radians = id`, `width = 4000`, `height = 3000`, `resolution = 1/20`
(0.05 m/px), `lat = 32`, `lon = 174/5` (34.8), with both hypotheses
discharged by evaluation. -/
theorem jpw_affine_center_roundtrip_witness :
    (create_jpw_from_json (fun _ => 1/2) id 4000 3000 (1/20) 32 (174/5)).B = 0 ∧
    (create_jpw_from_json (fun _ => 1/2) id 4000 3000 (1/20) 32 (174/5)).D = 0 ∧
    (create_jpw_from_json (fun _ => 1/2) id 4000 3000 (1/20) 32 (174/5)).A =
      (1/20) / (111320 * (1/2)) ∧
    (create_jpw_from_json (fun _ => 1/2) id 4000 3000 (1/20) 32 (174/5)).E =
      -(1/20) / 111320 ∧
    (create_jpw_from_json (fun _ => 1/2) id 4000 3000 (1/20) 32 (174/5)).C +
        4000 / 2 *
          (create_jpw_from_json (fun _ => 1/2) id 4000 3000 (1/20) 32 (174/5)).A +
        3000 / 2 *
          (create_jpw_from_json (fun _ => 1/2) id 4000 3000 (1/20) 32 (174/5)).B =
      174/5 ∧
    (create_jpw_from_json (fun _ => 1/2) id 4000 3000 (1/20) 32 (174/5)).F +
        4000 / 2 *
          (create_jpw_from_json (fun _ => 1/2) id 4000 3000 (1/20) 32 (174/5)).D +
        3000 / 2 *
          (create_jpw_from_json (fun _ => 1/2) id 4000 3000 (1/20) 32 (174/5)).E =
      32 :=
  jpw_affine_center_roundtrip (fun _ => 1/2) id 4000 3000 (1/20) 32 (174/5)
    (by norm_num) (by norm_num)

/-- Claim C7: GPS position extraction validates ranges — when any required
GPS tag is missing, when either DMS conversion fails, or when the converted
latitude is outside `[-90, 90]` or the converted longitude is outside
`[-180, 180]`, the position is discarded and BOTH coordinates come back as
`None`; in every case the two coordinates are either both known or both
unknown, never just one. -/
theorem gps_position_validation (tags : GpsTags) :
    ((extract_gps_info_from_tags tags).1 = none ↔
      (extract_gps_info_from_tags tags).2 = none) ∧
    (tags.gpsLatitude = none ∨ tags.gpsLatitudeRef = none ∨
        tags.gpsLongitude = none ∨ tags.gpsLongitudeRef = none →
      extract_gps_info_from_tags tags = (none, none)) ∧
    (∀ lat lat_ref lon lon_ref,
      tags.gpsLatitude = some lat → tags.gpsLatitudeRef = some lat_ref →
      tags.gpsLongitude = some lon → tags.gpsLongitudeRef = some lon_ref →
      (get_decimal_from_dms lat lat_ref = none ∨
          get_decimal_from_dms lon lon_ref = none →
        extract_gps_info_from_tags tags = (none, none)) ∧
      (∀ la lo, get_decimal_from_dms lat lat_ref = some la →
        get_decimal_from_dms lon lon_ref = some lo →
        ¬ ((-90 ≤ la ∧ la ≤ 90) ∧ (-180 ≤ lo ∧ lo ≤ 180)) →
        extract_gps_info_from_tags tags = (none, none))) := by
  obtain ⟨tlat, tlatr, tlon, tlonr⟩ := tags
  cases tlat with
  | none =>
      exact ⟨Iff.rfl, fun _ => rfl, fun a b c d h1 _ _ _ => by cases h1⟩
  | some lat =>
  cases tlatr with
  | none =>
      exact ⟨Iff.rfl, fun _ => rfl, fun a b c d _ h2 _ _ => by cases h2⟩
  | some lat_ref =>
  cases tlon with
  | none =>
      exact ⟨Iff.rfl, fun _ => rfl, fun a b c d _ _ h3 _ => by cases h3⟩
  | some lon =>
  cases tlonr with
  | none =>
      exact ⟨Iff.rfl, fun _ => rfl, fun a b c d _ _ _ h4 => by cases h4⟩
  | some lon_ref =>
  have hred : extract_gps_info_from_tags
      ⟨some lat, some lat_ref, some lon, some lon_ref⟩ =
      (match get_decimal_from_dms lat lat_ref,
          get_decimal_from_dms lon lon_ref with
       | some lat_decimal, some lon_decimal =>
           if (-90 ≤ lat_decimal ∧ lat_decimal ≤ 90) ∧
               (-180 ≤ lon_decimal ∧ lon_decimal ≤ 180) then
             (some lat_decimal, some lon_decimal)
           else (none, none)
       | _, _ => ((none : Option ℚ), (none : Option ℚ))) := rfl
  refine ⟨?_, ?_, ?_⟩
  · rw [hred]
    cases hla : get_decimal_from_dms lat lat_ref with
    | none => simp
    | some la =>
      cases hlo : get_decimal_from_dms lon lon_ref with
      | none => simp
      | some lo =>
        dsimp only
        by_cases hr : (-90 ≤ la ∧ la ≤ 90) ∧ (-180 ≤ lo ∧ lo ≤ 180)
        · rw [if_pos hr]
          simp
        · rw [if_neg hr]
  · rintro (h | h | h | h) <;> cases h
  · intro a b c d h1 h2 h3 h4
    cases h1; cases h2; cases h3; cases h4
    constructor
    · intro h
      rw [hred]
      rcases h with h | h
      · rw [h]
      · cases hla : get_decimal_from_dms lat lat_ref <;> rw [h]
    · intro la lo hla hlo hr
      rw [hred, hla, hlo]
      dsimp only
      rw [if_neg hr]

/-- Claim C7 witness: the theorem applied to a concrete tag set whose
latitude converts to `91` (out of range while the longitude `10` is in
range): both coordinates come back as `None`. -/
theorem gps_position_validation_witness :
    extract_gps_info_from_tags
        ⟨some ⟨⟨91, 1⟩, ⟨0, 1⟩, ⟨0, 1⟩⟩, some "N",
          some ⟨⟨10, 1⟩, ⟨0, 1⟩, ⟨0, 1⟩⟩, some "E"⟩ =
      (none, none) := by
  have hla : get_decimal_from_dms ⟨⟨91, 1⟩, ⟨0, 1⟩, ⟨0, 1⟩⟩ "N" = some 91 := by
    simp only [get_decimal_from_dms]
    rw [if_neg (by norm_num), if_neg (by simp)]
    norm_num [pyRound, Int.fract, round_eq]
  have hlo : get_decimal_from_dms ⟨⟨10, 1⟩, ⟨0, 1⟩, ⟨0, 1⟩⟩ "E" = some 10 := by
    simp only [get_decimal_from_dms]
    rw [if_neg (by norm_num), if_neg (by simp)]
    norm_num [pyRound, Int.fract, round_eq]
  exact ((gps_position_validation
      ⟨some ⟨⟨91, 1⟩, ⟨0, 1⟩, ⟨0, 1⟩⟩, some "N",
        some ⟨⟨10, 1⟩, ⟨0, 1⟩, ⟨0, 1⟩⟩, some "E"⟩).2.2
    ⟨⟨91, 1⟩, ⟨0, 1⟩, ⟨0, 1⟩⟩ "N" ⟨⟨10, 1⟩, ⟨0, 1⟩, ⟨0, 1⟩⟩ "E"
    rfl rfl rfl rfl).2 91 10 hla hlo (by norm_num)

section BatchLemmas

lemma addCounters_zero_left (c : Counters) : addCounters ⟨0, 0, 0⟩ c = c := by
  cases c
  simp [addCounters]

lemma addCounters_assoc (a b c : Counters) :
    addCounters (addCounters a b) c = addCounters a (addCounters b c) := by
  simp [addCounters, Nat.add_assoc]

lemma foldl_addCounters (l : List ImageEnv) (c : Counters) :
    l.foldl (fun acc e => addCounters acc (processImage e).1) c =
      addCounters c (processBatch l) := by
  induction l generalizing c with
  | nil =>
      cases c
      simp [processBatch, addCounters]
  | cons e t ih =>
      simp only [List.foldl_cons]
      rw [ih]
      have hpb : processBatch (e :: t) =
          addCounters (addCounters ⟨0, 0, 0⟩ (processImage e).1)
            (processBatch t) := by
        simp only [processBatch, List.foldl_cons]
        rw [ih]
        rfl
      rw [hpb, addCounters_zero_left, addCounters_assoc]

lemma processBatch_cons (e : ImageEnv) (t : List ImageEnv) :
    processBatch (e :: t) = addCounters (processImage e).1 (processBatch t) := by
  simp only [processBatch, List.foldl_cons]
  rw [foldl_addCounters, addCounters_zero_left]
  rfl

lemma processBatch_append (l1 l2 : List ImageEnv) :
    processBatch (l1 ++ l2) =
      addCounters (processBatch l1) (processBatch l2) := by
  simp only [processBatch, List.foldl_append]
  rw [foldl_addCounters]
  rfl

lemma processImage_fst_total (e : ImageEnv) : (processImage e).1.total = 1 := by
  unfold processImage
  split_ifs <;> rfl

lemma processImage_sum_of_writeOk (e : ImageEnv)
    (h : e.readOk = true → e.buildOk = true → e.writeOk = true) :
    (processImage e).1.ok + (processImage e).1.failed = 1 := by
  unfold processImage
  split_ifs with h1 h2 h3 h4
  · rfl
  · rw [Bool.and_eq_true] at h1
    exact absurd (h h1.1 h1.2) h3
  · rfl
  · rw [Bool.and_eq_true] at h1
    exact absurd (h h1.1 h1.2) h4
  · rfl

lemma processBatch_total (envs : List ImageEnv) :
    (processBatch envs).total = envs.length := by
  induction envs with
  | nil => rfl
  | cons e t ih =>
      rw [processBatch_cons]
      simp only [addCounters, List.length_cons]
      rw [processImage_fst_total, ih]
      omega

lemma processBatch_sum (envs : List ImageEnv)
    (h : ∀ e ∈ envs, e.readOk = true → e.buildOk = true → e.writeOk = true) :
    (processBatch envs).ok + (processBatch envs).failed =
      (processBatch envs).total := by
  induction envs with
  | nil => rfl
  | cons e t ih =>
      rw [processBatch_cons]
      have he := processImage_sum_of_writeOk e (h e (List.mem_cons_self e t))
      have ht := ih (fun x hx => h x (List.mem_cons_of_mem e hx))
      have hT := processImage_fst_total e
      simp only [addCounters]
      omega

lemma processImage_okEnv : processImage okEnv = (⟨1, 1, 0⟩, Artifact.accepted) := by
  norm_num [processImage, okEnv, has_los_fields, has_relative_alt]

lemma processImage_corruptEnv :
    processImage corruptEnv = (⟨1, 0, 1⟩, Artifact.rejected) := by
  norm_num [processImage, corruptEnv, retry_fallback]

lemma processBatch_replicate_okEnv (n : ℕ) :
    processBatch (List.replicate n okEnv) = ⟨n, n, 0⟩ := by
  induction n with
  | zero => rfl
  | succ k ih =>
      rw [List.replicate_succ, processBatch_cons, processImage_okEnv, ih]
      simp [addCounters, Nat.add_comm]

end BatchLemmas

/-- Claim C4: the batch controller classifies a processed image as Success
iff the extracted `losAzimuth`, `losPitch` and `relativeAltitude` are all
nonzero; Success records land in the accept (`output`) directory, Failed
records in the reject (`fail_output`) directory. In particular
`(0, 0, 10)` and `(90, 5, 0)` are Failed and `(90, 5, 10)` is Success. -/
theorem classification_rule :
    (∀ az pitch alt : ℚ, ∀ r1 r2 r3 : Bool,
      (processImage ⟨true, az, pitch, alt, true, true, r1, r2, r3⟩).2 =
        if (az ≠ 0 ∧ pitch ≠ 0) ∧ alt ≠ 0 then Artifact.accepted
        else Artifact.rejected) ∧
    (processImage ⟨true, 0, 0, 10, true, true, true, true, true⟩).2 =
      Artifact.rejected ∧
    (processImage ⟨true, 90, 5, 0, true, true, true, true, true⟩).2 =
      Artifact.rejected ∧
    (processImage ⟨true, 90, 5, 10, true, true, true, true, true⟩).2 =
      Artifact.accepted := by
  have hmain : ∀ az pitch alt : ℚ, ∀ r1 r2 r3 : Bool,
      (processImage ⟨true, az, pitch, alt, true, true, r1, r2, r3⟩).2 =
        if (az ≠ 0 ∧ pitch ≠ 0) ∧ alt ≠ 0 then Artifact.accepted
        else Artifact.rejected := by
    intro az pitch alt r1 r2 r3
    by_cases h1 : az = 0 <;> by_cases h2 : pitch = 0 <;> by_cases h3 : alt = 0 <;>
      simp [processImage, has_los_fields, has_relative_alt, h1, h2, h3]
  refine ⟨hmain, ?_, ?_, ?_⟩ <;> rw [hmain] <;> norm_num

/-- Claim C9, counterexample: the claim asserts `ok + failed =
total_images` for every session, but an exception after the classification
counter was already incremented (here: the record write of a successfully
classified image raises) makes the `except` handler increment
`failed_extractions` on top of `successful_extractions`, so a one-image
session reports `total = 1`, `ok = 1`, `failed = 1`. -/
theorem batch_counter_counterexample :
    processBatch [⟨true, 90, 5, 10, true, false, true, true, true⟩] =
      ⟨1, 1, 1⟩ ∧
    (processBatch [⟨true, 90, 5, 10, true, false, true, true, true⟩]).ok +
        (processBatch [⟨true, 90, 5, 10, true, false, true, true, true⟩]).failed ≠
      (processBatch [⟨true, 90, 5, 10, true, false, true, true, true⟩]).total := by
  have h : processBatch [⟨true, 90, 5, 10, true, false, true, true, true⟩] =
      ⟨1, 1, 1⟩ := by
    norm_num [processBatch, processImage, has_los_fields, has_relative_alt,
      retry_fallback, addCounters]
  exact ⟨h, by rw [h]; norm_num⟩

/-- Claim C9 (amended): an uncaught exception while building one image's
record does not abort the batch — every image file is counted exactly once
(`total = N`); a record-build failure yields counters `(1, 0, 1)` and the
best-effort retry writes to the reject directory (or, if the retry fails
too, the image is skipped while still counted); and `ok + failed =
total_images` holds provided no exception fires after an image's
classification counter was incremented (the record write succeeds); in
particular a session of `N` images with one corrupt image yields counts
`(N + 1 images, N ok, 1 failed)` summing to the total, with `N` accepted
records and exactly one reject artifact. -/
theorem batch_fault_isolation (envs : List ImageEnv) :
    (processBatch envs).total = envs.length ∧
    ((∀ e ∈ envs, e.readOk = true → e.buildOk = true → e.writeOk = true) →
      (processBatch envs).ok + (processBatch envs).failed =
        (processBatch envs).total) ∧
    (∀ e : ImageEnv, e.buildOk = false →
      (processImage e).1 = ⟨1, 0, 1⟩ ∧
      ((e.retryReadOk && e.retryBuildOk && e.retryWriteOk) = true →
        (processImage e).2 = Artifact.rejected) ∧
      ((e.retryReadOk && e.retryBuildOk && e.retryWriteOk) = false →
        (processImage e).2 = Artifact.skipped)) ∧
    (∀ n : ℕ,
      processBatch (List.replicate n okEnv ++ [corruptEnv]) = ⟨n + 1, n, 1⟩ ∧
      batchArtifacts (List.replicate n okEnv ++ [corruptEnv]) =
        List.replicate n Artifact.accepted ++ [Artifact.rejected]) := by
  refine ⟨processBatch_total envs, processBatch_sum envs, ?_, ?_⟩
  · intro e hb
    refine ⟨?_, ?_, ?_⟩
    · simp [processImage, hb]
    · intro hr
      simp [processImage, hb, retry_fallback, hr]
    · intro hr
      simp [processImage, hb, retry_fallback, hr]
  · intro n
    constructor
    · rw [processBatch_append, processBatch_replicate_okEnv]
      have h1 : processBatch [corruptEnv] = ⟨1, 0, 1⟩ := by
        rw [processBatch_cons, processImage_corruptEnv]
        rfl
      rw [h1]
      simp [addCounters]
    · simp [batchArtifacts, List.map_append, List.map_replicate,
        processImage_okEnv, processImage_corruptEnv]

/-- Claim C9 witness: the amended theorem applied to the two-image session
`[okEnv, corruptEnv]` (hypotheses discharged concretely): its counters sum
to the total, and the corrupt image contributes `(1, 0, 1)`. -/
theorem batch_fault_isolation_witness :
    ((processBatch [okEnv, corruptEnv]).ok +
        (processBatch [okEnv, corruptEnv]).failed =
      (processBatch [okEnv, corruptEnv]).total) ∧
    (processImage corruptEnv).1 = ⟨1, 0, 1⟩ :=
  ⟨(batch_fault_isolation [okEnv, corruptEnv]).2.1
      (by
        intro e he
        rcases List.mem_cons.mp he with h | h
        · subst h
          intro _ _
          rfl
        · rcases List.mem_cons.mp h with h2 | h2
          · subst h2
            intro _ hb
            exact absurd hb (by norm_num [corruptEnv])
          · exact absurd h2 (List.not_mem_nil e)),
    ((batch_fault_isolation [okEnv, corruptEnv]).2.2.1 corruptEnv rfl).1⟩

/-- Claim C3: the fused `mslAltitude` of `build_platform_data` follows the
priority chain — the external tool's `GPSAltitude` wins whenever it is
present with `GPSAltitudeRef` absent or `int(ref) == 0`, regardless of
`AbsoluteAltitude`; otherwise a present `AbsoluteAltitude` wins; otherwise
the `get_float`-parsed embedded-tag GPS altitude; which itself defaults to
`0.0` when the tag is absent. -/
theorem msl_altitude_priority (tags : Tags) (dt : String) (d : ToolData) :
    lookupKey (build_platform_data tags dt (some d)) "mslAltitude" =
      some (JVal.num (fused_msl tags (some d))) ∧
    (∀ g : ℚ, d.gpsAlt = some g →
      (d.gpsAltRef = none ∨ ∃ r : ℚ, d.gpsAltRef = some r ∧ pyInt r = 0) →
      fused_msl tags (some d) = g) ∧
    ((d.gpsAlt = none ∨ ∃ r : ℚ, d.gpsAltRef = some r ∧ pyInt r ≠ 0) →
      (∀ a : ℚ, d.absAlt = some a → fused_msl tags (some d) = a) ∧
      (d.absAlt = none →
        fused_msl tags (some d) = get_float tags.gpsAltitudeFloat 0)) ∧
    (tags.gpsAltitudeFloat = none → get_float tags.gpsAltitudeFloat 0 = 0) := by
  refine ⟨rfl, ?_, ?_, ?_⟩
  · intro g hg hr
    have hc : d.gpsAlt.isSome = true ∧
        (d.gpsAltRef = none ∨ pyInt (d.gpsAltRef.getD 0) = 0) := by
      constructor
      · rw [hg]
        rfl
      · rcases hr with h | ⟨r, hr1, hr2⟩
        · exact Or.inl h
        · right
          rw [hr1]
          exact hr2
    simp only [fused_msl]
    rw [if_pos hc, hg]
    rfl
  · intro hB
    have hc : ¬ (d.gpsAlt.isSome = true ∧
        (d.gpsAltRef = none ∨ pyInt (d.gpsAltRef.getD 0) = 0)) := by
      rintro ⟨h1, h2⟩
      rcases hB with hB | ⟨r, hr1, hr2⟩
      · rw [hB] at h1
        cases h1
      · rcases h2 with h2 | h2
        · rw [h2] at hr1
          cases hr1
        · rw [hr1] at h2
          exact hr2 h2
    constructor
    · intro a ha
      simp only [fused_msl]
      rw [if_neg hc, if_pos (by rw [ha]; rfl), ha]
      rfl
    · intro ha
      simp only [fused_msl]
      rw [if_neg hc, if_neg (by simp [ha])]
  · intro h
    rw [h]
    rfl

/-- Claim C3 witness: the theorem applied to a tool response carrying
`GPSAltitude = 100` with `GPSAltitudeRef = 0` and a present, nonzero
`AbsoluteAltitude = 55`: the fused value is `100`. -/
theorem msl_altitude_priority_witness :
    fused_msl ⟨none, none, none, none, none, none, none, none, none⟩
        (some ⟨some 100, some 0, some 55, none, none, none⟩) = 100 :=
  (msl_altitude_priority ⟨none, none, none, none, none, none, none, none, none⟩
      "Unknown platform" ⟨some 100, some 0, some 55, none, none, none⟩).2.1 100
    rfl (Or.inr ⟨0, rfl, by norm_num [pyInt]⟩)

/-- Claim C8, counterexample: the spec says a `None` value never propagates
into the record's numeric fields, in particular those consumed by the
georeferencing computation — but when GPS extraction fails, the extracted
latitude/longitude pair is `(None, None)` and `build_camera_position`
stores them verbatim, so the record's `gpsLatitude` (read numerically by
`create_jpw_from_json`) is `null`. -/
theorem record_null_gps_counterexample :
    lookupKey (build_camera_position
        ⟨none, none, none, none, none, none, none, none, none⟩ none none
        ⟨0, 0, 0⟩ 0) "gpsLatitude" = some JVal.null ∧
    (lookupKey (build_json_structure (fun _ => none) id id "IMG_0001.JPG"
        ⟨none, none, none, none, none, none, none, none, none⟩ none none none
        ⟨0, 0, 0⟩ none "Unknown platform") "CameraPosition").map
      (fun s => lookupKey s "gpsLatitude") = some (some JVal.null) :=
  ⟨rfl, rfl⟩

/-- Claim C8 (amended): every record the builder produces carries all keys
of all six sections, whatever the underlying sources yielded, and every
numeric field other than `gpsLatitude`/`gpsLongitude` holds a number
(absent sources defaulting to zero or empty strings); the two GPS
coordinates, however, are stored verbatim and are `null` exactly when GPS
extraction returned no position. -/
theorem record_fully_populated (reformatTime : String → Option String)
    (tan radians : ℚ → ℚ) (filename : String) (tags : Tags)
    (lat lon : Option ℚ) (xmpRelAlt : Option ℚ) (los : LosFields)
    (tool : Option ToolData) (dt : String) :
    (build_json_structure reformatTime tan radians filename tags lat lon
        xmpRelAlt los tool dt).map Prod.fst =
      ["BasicData", "CameraData", "CameraPosition", "PlatformData",
        "Operational", "SensorSpecificData"] ∧
    (build_basic_data reformatTime tan radians filename tags xmpRelAlt).map Prod.fst =
      ["id", "sensorName", "sensorType", "imageFile", "imagingTime",
        "prevImagingTime", "nextImagingTime", "height", "width",
        "resolution"] ∧
    (build_camera_data tags).map Prod.fst =
      ["focalLengthInPixelsX", "focalLengthInPixelsY", "foVX", "foVY",
        "cx", "cy", "k1", "k2", "k3", "p1", "p2", "alpha", "cameraMake",
        "cameraModel", "focalId", "exposureDuration", "fnumber"] ∧
    (build_camera_position tags lat lon los (xmpRelAlt.getD 0)).map Prod.fst =
      ["gpsLatitude", "gpsLongitude", "gpsAltitude", "relativeAltitude",
        "losAzimuth", "losPitch", "losRoll"] ∧
    (build_platform_data tags dt tool).map Prod.fst =
      ["platformName", "platformId", "trueCourse", "groundSpeed",
        "mslAltitude", "platformYaw", "platformPitch", "platformRoll"] ∧
    build_operational_data.map Prod.fst =
      ["missionNumber", "operationUnit"] ∧
    build_sensor_specific_data.map Prod.fst =
      ["state", "sixDofSource", "groundRef"] ∧
    (∃ q, lookupKey (build_basic_data reformatTime tan radians filename tags xmpRelAlt) "height" =
      some (JVal.num q)) ∧
    (∃ q, lookupKey (build_basic_data reformatTime tan radians filename tags xmpRelAlt) "width" =
      some (JVal.num q)) ∧
    (∃ q, lookupKey (build_basic_data reformatTime tan radians filename tags xmpRelAlt) "resolution" =
      some (JVal.num q)) ∧
    (∃ q, lookupKey (build_camera_data tags) "focalLengthInPixelsX" =
      some (JVal.num q)) ∧
    (∃ q, lookupKey (build_camera_data tags) "focalLengthInPixelsY" =
      some (JVal.num q)) ∧
    (∃ q, lookupKey (build_camera_data tags) "foVX" =
      some (JVal.num q)) ∧
    (∃ q, lookupKey (build_camera_data tags) "foVY" =
      some (JVal.num q)) ∧
    (∃ q, lookupKey (build_camera_data tags) "cx" =
      some (JVal.num q)) ∧
    (∃ q, lookupKey (build_camera_data tags) "cy" =
      some (JVal.num q)) ∧
    (∃ q, lookupKey (build_camera_position tags lat lon los (xmpRelAlt.getD 0)) "gpsAltitude" =
      some (JVal.num q)) ∧
    (∃ q, lookupKey (build_camera_position tags lat lon los (xmpRelAlt.getD 0)) "relativeAltitude" =
      some (JVal.num q)) ∧
    (∃ q, lookupKey (build_camera_position tags lat lon los (xmpRelAlt.getD 0)) "losAzimuth" =
      some (JVal.num q)) ∧
    (∃ q, lookupKey (build_camera_position tags lat lon los (xmpRelAlt.getD 0)) "losPitch" =
      some (JVal.num q)) ∧
    (∃ q, lookupKey (build_camera_position tags lat lon los (xmpRelAlt.getD 0)) "losRoll" =
      some (JVal.num q)) ∧
    (∃ q, lookupKey (build_platform_data tags dt tool) "trueCourse" =
      some (JVal.num q)) ∧
    (∃ q, lookupKey (build_platform_data tags dt tool) "groundSpeed" =
      some (JVal.num q)) ∧
    (∃ q, lookupKey (build_platform_data tags dt tool) "mslAltitude" =
      some (JVal.num q)) ∧
    (∃ q, lookupKey (build_platform_data tags dt tool) "platformYaw" =
      some (JVal.num q)) ∧
    (∃ q, lookupKey (build_platform_data tags dt tool) "platformPitch" =
      some (JVal.num q)) ∧
    (∃ q, lookupKey (build_platform_data tags dt tool) "platformRoll" =
      some (JVal.num q)) ∧
    lookupKey (build_camera_position tags lat lon los (xmpRelAlt.getD 0)) "gpsLatitude" =
      some (optNum lat) ∧
    lookupKey (build_camera_position tags lat lon los (xmpRelAlt.getD 0)) "gpsLongitude" =
      some (optNum lon) := by
  exact ⟨rfl, rfl, rfl, rfl, rfl, rfl, rfl,
    ⟨_, rfl⟩, ⟨_, rfl⟩, ⟨_, rfl⟩,
    ⟨_, rfl⟩, ⟨_, rfl⟩, ⟨_, rfl⟩, ⟨_, rfl⟩, ⟨_, rfl⟩, ⟨_, rfl⟩,
    ⟨_, rfl⟩, ⟨_, rfl⟩, ⟨_, rfl⟩, ⟨_, rfl⟩, ⟨_, rfl⟩,
    ⟨_, rfl⟩, ⟨_, rfl⟩, ⟨_, rfl⟩, ⟨_, rfl⟩, ⟨_, rfl⟩, ⟨_, rfl⟩,
    rfl, rfl⟩
